import Mathlib

/-!
Verification of the sim-ai internal polling service.

The source under verification is the `InternalPoller` class (an in-process
interval poller that periodically issues authenticated HTTP GET calls to a
schedule-execution endpoint and an Outlook webhook-polling endpoint) together
with its start/stop lifecycle.

The embedding is shallow:

* The poller's lifecycle (`start`/`stop`, the two recurring `setInterval`
  timers, the two one-shot `setTimeout` triggers, the `isRunning` flag and the
  two stored interval handles) is modelled as a pure transition function on an
  explicit `World` state that records the armed timers, the next fresh timer
  id, and the structured-logger output.  Durations are in milliseconds, as in
  the source (`60 * 1000`, `5000`, `10000`).  The bare `console.log` calls in
  the source bypass the structured logger and are not part of the log stream;
  only `logger.debug/info/warn/error` calls are recorded.
* Each poll task (`pollSchedules` / `pollOutlook`) is modelled as a pure
  function of the environment (`NEXT_PUBLIC_APP_URL`, `CRON_SECRET`) and an
  explicit behaviour of the `fetch` call (`FetchOutcome`: the call may throw,
  or return a response with a status and a body that itself may fail to parse).
  The function returns the task's observable effects (log entries and HTTP
  requests issued) together with the exception, if any, escaping the task —
  the `try`/`catch` wrapper is modelled separately from the task body so that
  the catch-all behaviour is a provable property rather than a typing artifact.
* JavaScript value semantics relevant to the tasks (`data.executedCount > 0`
  on a parsed JSON body, property access throwing on `null`, template-literal
  stringification, falsiness of absent/empty environment strings) is embedded
  for the JSON fragment these endpoints produce: `null`, booleans, integer
  numbers, strings and objects (JSON arrays and non-integer numbers do not
  occur in these payloads and are omitted).
-/

namespace InternalPoller

/-- Levels of the structured logger (`logger.debug/info/warn/error`). -/
inductive LogLevel where
  | debug
  | info
  | warn
  | error
  deriving DecidableEq, Repr

/-- One structured log line: a level and the rendered message. -/
structure LogEntry where
  level : LogLevel
  msg : String
  deriving DecidableEq, Repr

/-- The two poll tasks owned by the poller. -/
inductive TaskId where
  | schedule
  | outlook
  deriving DecidableEq, Repr

/-- A timer is either recurring (`setInterval`) with a period or one-shot
(`setTimeout`) with a delay, both in milliseconds as in the source. -/
inductive TimerKind where
  | interval (periodMs : Nat)
  | timeout (delayMs : Nat)
  deriving DecidableEq, Repr

/-- An armed timer: its handle, the task its callback runs, its kind, and the
simulated time at which it was armed. -/
structure Timer where
  id : Nat
  task : TaskId
  kind : TimerKind
  armedAt : Nat
  deriving DecidableEq, Repr

/-- The mutable fields of the `InternalPoller` class:
`scheduleIntervalId`, `outlookIntervalId` (interval handles, `null` when
absent) and `isRunning`. -/
structure PollerState where
  scheduleIntervalId : Option Nat
  outlookIntervalId : Option Nat
  isRunning : Bool
  deriving DecidableEq, Repr

/-- The poller plus its runtime context: the set of armed timers, a fresh-id
counter for timer handles, the current simulated time (ms), and the logger
output so far. -/
structure World where
  poller : PollerState
  timers : List Timer
  nextId : Nat
  now : Nat
  log : List LogEntry
  deriving DecidableEq, Repr

/-- The freshly constructed singleton: no handles, not running, no timers. -/
def initialWorld : World :=
  { poller := { scheduleIntervalId := none, outlookIntervalId := none, isRunning := false }
    timers := []
    nextId := 0
    now := 0
    log := [] }

/-- `start()`: if already running, log a warning and return; otherwise set
`isRunning`, arm the two recurring 60 000 ms intervals, arm the two one-shot
staggered timeouts (5 000 ms for schedules, 10 000 ms for Outlook), store the
interval handles, and log the startup messages. -/
def start (w : World) : World :=
  if w.poller.isRunning then
    { w with log := w.log ++ [⟨.warn, "Internal poller already running"⟩] }
  else
    let schedInt : Timer := ⟨w.nextId, .schedule, .interval 60000, w.now⟩
    let outInt : Timer := ⟨w.nextId + 1, .outlook, .interval 60000, w.now⟩
    let schedOnce : Timer := ⟨w.nextId + 2, .schedule, .timeout 5000, w.now⟩
    let outOnce : Timer := ⟨w.nextId + 3, .outlook, .timeout 10000, w.now⟩
    { poller := { scheduleIntervalId := some schedInt.id
                  outlookIntervalId := some outInt.id
                  isRunning := true }
      timers := w.timers ++ [schedInt, outInt, schedOnce, outOnce]
      nextId := w.nextId + 4
      now := w.now
      log := w.log ++
        [⟨.info, "Starting internal polling service..."⟩,
         ⟨.info, "Internal polling service started successfully"⟩,
         ⟨.info, "- Schedule polling: every 60 seconds"⟩,
         ⟨.info, "- Outlook polling: every 60 seconds"⟩] }

/-- `stop()`: if not running, return with no effect at all; otherwise
`clearInterval` each stored handle (the one-shot timeouts are not stored and
hence not cancelled), null both handles, clear `isRunning` and log. -/
def stop (w : World) : World :=
  if w.poller.isRunning then
    let timers1 :=
      match w.poller.scheduleIntervalId with
      | some i => w.timers.filter fun t => t.id != i
      | none => w.timers
    let timers2 :=
      match w.poller.outlookIntervalId with
      | some i => timers1.filter fun t => t.id != i
      | none => timers1
    { poller := { scheduleIntervalId := none, outlookIntervalId := none, isRunning := false }
      timers := timers2
      nextId := w.nextId
      now := w.now
      log := w.log ++
        [⟨.info, "Stopping internal polling service..."⟩,
         ⟨.info, "Internal polling service stopped"⟩] }
  else w

/-- How many times a single armed timer has fired by simulated time `time`:
a `setTimeout` fires once at `armedAt + delay`; a `setInterval` armed at
`armedAt` fires at `armedAt + p`, `armedAt + 2p`, …. -/
def timerFires (t : Timer) (time : Nat) : Nat :=
  match t.kind with
  | .timeout d => if t.armedAt + d ≤ time then 1 else 0
  | .interval p => (time - t.armedAt) / p

/-- Total number of invocations of `task` by simulated time `time`, summed
over the currently armed timers. -/
def fireCount (w : World) (task : TaskId) (time : Nat) : Nat :=
  (w.timers.filter fun t => t.task == task).foldl (fun acc t => acc + timerFires t time) 0

/-- Whether a timer kind is a recurring `setInterval` timer. -/
def isInterval : TimerKind → Bool
  | .interval _ => true
  | .timeout _ => false

/-- Number of armed recurring timers whose callback runs `task`. -/
def recurringTimerCount (w : World) (task : TaskId) : Nat :=
  (w.timers.filter fun t => t.task == task && isInterval t.kind).length

/-- External lifecycle calls into the poller. -/
inductive Action where
  | startAct
  | stopAct
  deriving DecidableEq, Repr

/-- Apply one lifecycle call. -/
def step (w : World) (a : Action) : World :=
  match a with
  | .startAct => start w
  | .stopAct => stop w

/-- The world reached from the freshly constructed singleton by a sequence of
`start()`/`stop()` calls. -/
def run (acts : List Action) : World := acts.foldl step initialWorld

/-- The data-model invariant: when not running, both interval handles are
absent. -/
def handlesAbsentWhenStopped (w : World) : Prop :=
  w.poller.isRunning = false →
    w.poller.scheduleIntervalId = none ∧ w.poller.outlookIntervalId = none

/-- The JSON fragment produced by the polled endpoints (plus `undefined`, which
arises from property access, never from parsing): `null`, booleans, integer
numbers, strings and objects.  JSON arrays and non-integer numbers do not
occur in these payloads and are omitted. -/
inductive JSValue where
  | null
  | undefined
  | bool (b : Bool)
  | num (n : Int)
  | str (s : String)
  | obj (fields : List (String × JSValue))
  deriving Repr

/-- JavaScript `ToNumber` on the integer-string fragment: trimmed empty string
is `0`, an optionally signed decimal integer is its value, anything else is
`NaN` (`none`). -/
def strToNumber (s : String) : Option Int :=
  let t := s.trim
  if t = "" then some 0
  else
    let digitsVal : List Char → Int := fun cs =>
      Int.ofNat (cs.foldl (fun acc c => acc * 10 + (c.toNat - Char.toNat '0')) 0)
    match t.toList with
    | '-' :: rest =>
        if rest ≠ [] ∧ rest.all Char.isDigit then some (-(digitsVal rest)) else none
    | '+' :: rest =>
        if rest ≠ [] ∧ rest.all Char.isDigit then some (digitsVal rest) else none
    | cs =>
        if cs.all Char.isDigit then some (digitsVal cs) else none

/-- JavaScript `ToNumber` on the embedded fragment; `none` models `NaN`. -/
def toNumber : JSValue → Option Int
  | .null => some 0
  | .undefined => none
  | .bool b => some (if b then 1 else 0)
  | .num n => some n
  | .str s => strToNumber s
  | .obj _ => none

/-- JavaScript template-literal stringification of the embedded fragment. -/
def jsToString : JSValue → String
  | .null => "null"
  | .undefined => "undefined"
  | .bool b => if b then "true" else "false"
  | .num n => toString n
  | .str s => s
  | .obj _ => "[object Object]"

/-- The JavaScript comparison `v > 0`: coerce via `ToNumber`, with `NaN`
comparing false. -/
def jsGtZero (v : JSValue) : Bool :=
  match toNumber v with
  | some n => decide (0 < n)
  | none => false

/-- JavaScript property access `v.f`: throws a `TypeError` on `null` and
`undefined`; yields `undefined` for a missing field or a non-object base. -/
def getField (v : JSValue) (f : String) : Except String JSValue :=
  match v with
  | .null => .error ("TypeError: Cannot read properties of null (reading " ++ f ++ ")")
  | .undefined => .error ("TypeError: Cannot read properties of undefined (reading " ++ f ++ ")")
  | .obj fields =>
      match fields.lookup f with
      | some x => .ok x
      | none => .ok .undefined
  | _ => .ok .undefined

/-- The environment variables a poll task reads on each tick. -/
structure Env where
  NEXT_PUBLIC_APP_URL : Option String
  CRON_SECRET : Option String
  deriving Repr

/-- Outcome of `response.json()`: it may throw (malformed body) or yield a
parsed value. -/
inductive BodyOutcome where
  | throws (msg : String)
  | value (v : JSValue)
  deriving Repr

/-- Behaviour of the `fetch` call on one tick: it may throw (network failure)
or return a response with a status, a status text, and a body. -/
inductive FetchOutcome where
  | throws (msg : String)
  | response (status : Nat) (statusText : String) (body : BodyOutcome)
  deriving Repr

/-- `response.ok`: status in the 2xx range. -/
def responseOk (status : Nat) : Bool :=
  decide (200 ≤ status) && decide (status < 300)

/-- JavaScript `a || b` on an optional environment string: the default is
taken when the variable is unset or set to the (falsy) empty string. -/
def jsOrDefault (v : Option String) (dflt : String) : String :=
  match v with
  | some s => if s = "" then dflt else s
  | none => dflt

/-- JavaScript falsiness `!v` of an optional environment string. -/
def falsyStr (v : Option String) : Bool :=
  match v with
  | some s => s == ""
  | none => true

/-- Observable effects of one poll-task invocation: the structured log lines
emitted and the URLs of the HTTP requests issued, in order. -/
structure Effects where
  logs : List LogEntry
  requests : List String
  deriving DecidableEq, Repr

/-- The body of `pollSchedules()` (everything inside the `try`): reads config,
skips with a warning when `CRON_SECRET` is falsy, otherwise issues one GET to
`{appUrl}/api/schedules/execute` and interprets the response.  Returns the
effects so far together with the exception, if any, the body throws. -/
def pollSchedulesBody (env : Env) (fetch : FetchOutcome) : Effects × Option String :=
  let appUrl := jsOrDefault env.NEXT_PUBLIC_APP_URL "http://localhost:3000"
  if falsyStr env.CRON_SECRET then
    ({ logs := [⟨.warn, "CRON_SECRET not configured - skipping schedule polling"⟩]
       requests := [] }, none)
  else
    let url := appUrl ++ "/api/schedules/execute"
    let logs0 : List LogEntry := [⟨.debug, "Polling schedules..."⟩]
    match fetch with
    | .throws e => ({ logs := logs0, requests := [url] }, some e)
    | .response status statusText body =>
        if !responseOk status then
          ({ logs := logs0 ++ [⟨.error, ("Schedule polling failed: " ++ toString status ++ " " ++ statusText)⟩]
             requests := [url] }, none)
        else
          match body with
          | .throws e => ({ logs := logs0, requests := [url] }, some e)
          | .value data =>
              match getField data "executedCount" with
              | .error e => ({ logs := logs0, requests := [url] }, some e)
              | .ok cnt =>
                  if jsGtZero cnt then
                    ({ logs := logs0 ++
                         [⟨.info, ("Schedule poll completed: " ++ jsToString cnt ++ " workflows executed")⟩]
                       requests := [url] }, none)
                  else
                    ({ logs := logs0 ++ [⟨.debug, "Schedule poll completed: no workflows due"⟩]
                       requests := [url] }, none)

/-- `pollSchedules()`: the body wrapped in its `try`/`catch`.  Any exception
thrown by the body is caught and logged at error level; the second component
is the exception escaping the task, `none` meaning the task resolves
normally. -/
def pollSchedules (env : Env) (fetch : FetchOutcome) : Effects × Option String :=
  match pollSchedulesBody env fetch with
  | (eff, none) => (eff, none)
  | (eff, some e) =>
      ({ eff with logs := eff.logs ++ [⟨.error, ("Error polling schedules: " ++ e)⟩] }, none)

/-- The body of `pollOutlook()` (everything inside the `try`): reads config,
skips with a warning when `CRON_SECRET` is falsy, otherwise issues one GET to
`{appUrl}/api/webhooks/poll/outlook` and interprets the response. -/
def pollOutlookBody (env : Env) (fetch : FetchOutcome) : Effects × Option String :=
  let appUrl := jsOrDefault env.NEXT_PUBLIC_APP_URL "http://localhost:3000"
  if falsyStr env.CRON_SECRET then
    ({ logs := [⟨.warn, "CRON_SECRET not configured - skipping Outlook polling"⟩]
       requests := [] }, none)
  else
    let url := appUrl ++ "/api/webhooks/poll/outlook"
    let logs0 : List LogEntry := [⟨.debug, "Polling Outlook..."⟩]
    match fetch with
    | .throws e => ({ logs := logs0, requests := [url] }, some e)
    | .response status statusText body =>
        if !responseOk status then
          ({ logs := logs0 ++ [⟨.error, ("Outlook polling failed: " ++ toString status ++ " " ++ statusText)⟩]
             requests := [url] }, none)
        else
          match body with
          | .throws e => ({ logs := logs0, requests := [url] }, some e)
          | .value data =>
              match getField data "total" with
              | .error e => ({ logs := logs0, requests := [url] }, some e)
              | .ok tot =>
                  if jsGtZero tot then
                    match getField data "successful" with
                    | .error e => ({ logs := logs0, requests := [url] }, some e)
                    | .ok succ =>
                        ({ logs := logs0 ++
                             [⟨.info, ("Outlook poll completed: " ++ jsToString tot ++ " webhooks checked, " ++ jsToString succ ++ " successful")⟩]
                           requests := [url] }, none)
                  else
                    ({ logs := logs0 ++ [⟨.debug, "Outlook poll completed: no active webhooks"⟩]
                       requests := [url] }, none)

/-- `pollOutlook()`: the body wrapped in its `try`/`catch`. -/
def pollOutlook (env : Env) (fetch : FetchOutcome) : Effects × Option String :=
  match pollOutlookBody env fetch with
  | (eff, none) => (eff, none)
  | (eff, some e) =>
      ({ eff with logs := eff.logs ++ [⟨.error, ("Error polling Outlook: " ++ e)⟩] }, none)

/-- The URL `pollSchedules` targets for a given environment. -/
def scheduleUrl (env : Env) : String :=
  jsOrDefault env.NEXT_PUBLIC_APP_URL "http://localhost:3000" ++ "/api/schedules/execute"

/-- The URL `pollOutlook` targets for a given environment. -/
def outlookUrl (env : Env) : String :=
  jsOrDefault env.NEXT_PUBLIC_APP_URL "http://localhost:3000" ++ "/api/webhooks/poll/outlook"

/-- On an already-running poller, `start()` only appends the warning log. -/
lemma start_of_running (w : World) (h : w.poller.isRunning = true) :
    start w = { w with log := w.log ++ [⟨.warn, "Internal poller already running"⟩] } := by
  simp [start, h]

/-- `start()` always leaves the poller running. -/
lemma start_isRunning (w : World) : (start w).poller.isRunning = true := by
  by_cases h : w.poller.isRunning = true
  · rw [start_of_running w h]; exact h
  · simp only [Bool.not_eq_true] at h
    simp [start, h]

/-- After `n + 1` consecutive `start()` calls the poller is running. -/
lemma iterate_start_isRunning (n : Nat) :
    ((start^[n + 1]) initialWorld).poller.isRunning = true := by
  rw [Function.iterate_succ_apply']
  exact start_isRunning _

/-- C1: `start()` is idempotent.  If the poller is already running, `start()`
changes neither the poller state nor the armed timers — it only appends the
warning log line — and consequently any positive number of consecutive
`start()` calls leaves exactly one recurring timer armed per task. -/
theorem start_idempotent :
    (∀ w : World, w.poller.isRunning = true →
      (start w).poller = w.poller ∧ (start w).timers = w.timers ∧
      (start w).log = w.log ++ [⟨.warn, "Internal poller already running"⟩]) ∧
    (∀ n : Nat,
      recurringTimerCount ((start^[n + 1]) initialWorld) .schedule = 1 ∧
      recurringTimerCount ((start^[n + 1]) initialWorld) .outlook = 1) := by
  constructor
  · intro w h
    rw [start_of_running w h]
    exact ⟨rfl, rfl, rfl⟩
  · intro n
    induction n with
    | zero => decide
    | succ m ih =>
        have hrun := iterate_start_isRunning m
        rw [Function.iterate_succ_apply' start (m + 1) initialWorld,
          start_of_running _ hrun]
        simpa [recurringTimerCount] using ih

/-- Witness for C1 at a concrete input: a second `start()` call changes
neither poller state nor timers, and two consecutive calls leave exactly one
recurring timer per task. -/
theorem start_idempotent_witness :
    (start (start initialWorld)).poller = (start initialWorld).poller ∧
    (start (start initialWorld)).timers = (start initialWorld).timers ∧
    recurringTimerCount ((start^[2]) initialWorld) .schedule = 1 ∧
    recurringTimerCount ((start^[2]) initialWorld) .outlook = 1 := by
  have h := start_idempotent
  have h1 := h.1 (start initialWorld) (by rfl)
  have h2 := h.2 1
  exact ⟨h1.1, h1.2.1, h2.1, h2.2⟩

/-- C4: after `start()` from the initial (stopped) state, the armed timers are
exactly one recurring 60 000 ms interval per task plus a one-shot 5 000 ms
timeout for schedules and a one-shot 10 000 ms timeout for Outlook; at
simulated time 5 s the Schedule task has fired exactly once, at 10 s the
Outlook task has fired exactly once while Schedule still has a single fire,
and by 120 s each task has fired at least three times. -/
theorem staggered_startup_and_periods :
    (start initialWorld).timers =
      [⟨0, .schedule, .interval 60000, 0⟩, ⟨1, .outlook, .interval 60000, 0⟩,
       ⟨2, .schedule, .timeout 5000, 0⟩, ⟨3, .outlook, .timeout 10000, 0⟩] ∧
    fireCount (start initialWorld) .schedule 5000 = 1 ∧
    fireCount (start initialWorld) .outlook 10000 = 1 ∧
    fireCount (start initialWorld) .schedule 10000 = 1 ∧
    3 ≤ fireCount (start initialWorld) .schedule 120000 ∧
    3 ≤ fireCount (start initialWorld) .outlook 120000 := by
  refine ⟨rfl, ?_, ?_, ?_, ?_, ?_⟩ <;> decide

/-- C8: `stop()` is idempotent and total.  On a stopped poller it is the
identity; on a running poller it clears both handles, sets `isRunning` to
false, and removes exactly the timers whose handles were stored (the two
recurring intervals) — concretely, stopping a freshly started poller leaves
only the two one-shot timeouts armed. -/
theorem stop_idempotent_total :
    (∀ w : World, w.poller.isRunning = false → stop w = w) ∧
    (∀ w : World, w.poller.isRunning = true →
      (stop w).poller = ⟨none, none, false⟩ ∧
      ∀ t : Timer, t ∈ (stop w).timers ↔
        t ∈ w.timers ∧ w.poller.scheduleIntervalId ≠ some t.id ∧
          w.poller.outlookIntervalId ≠ some t.id) ∧
    (stop (start initialWorld)).timers =
      [⟨2, .schedule, .timeout 5000, 0⟩, ⟨3, .outlook, .timeout 10000, 0⟩] := by
  refine ⟨?_, ?_, rfl⟩
  · intro w h
    simp [stop, h]
  · intro w h
    constructor
    · rcases hs : w.poller.scheduleIntervalId with _ | i <;>
        rcases ho : w.poller.outlookIntervalId with _ | j <;>
          simp [stop, h, hs, ho]
    · intro t
      rcases hs : w.poller.scheduleIntervalId with _ | i <;>
        rcases ho : w.poller.outlookIntervalId with _ | j <;>
          simp only [stop, h, hs, ho, if_true, List.mem_filter, bne_iff_ne, ne_eq,
            Option.some.injEq, reduceCtorEq, not_false_eq_true, true_and, and_true] <;>
        aesop

/-- Witness for C8 at concrete inputs: stopping the initial (stopped) world is
the identity, and stopping a freshly started poller clears the poller state. -/
theorem stop_idempotent_total_witness :
    stop initialWorld = initialWorld ∧
    (stop (start initialWorld)).poller = ⟨none, none, false⟩ ∧
    (⟨0, .schedule, .interval 60000, 0⟩ : Timer) ∈ (start initialWorld).timers ∧
    ¬ (⟨0, .schedule, .interval 60000, 0⟩ : Timer) ∈ (stop (start initialWorld)).timers := by
  have h := stop_idempotent_total
  have h2 := h.2.1 (start initialWorld) (by rfl)
  refine ⟨h.1 initialWorld (by rfl), h2.1, by decide, ?_⟩
  intro hmem
  have := (h2.2 ⟨0, .schedule, .interval 60000, 0⟩).mp hmem
  exact this.2.1 (by decide)

/-- C9: the poller is restartable.  On any non-running world (in particular
after `stop()`), `start()` is not a no-op: it sets `isRunning`, appends
exactly one recurring 60 000 ms interval per task and the two staggered
one-shot timeouts (5 000 ms schedule, 10 000 ms Outlook), the same timer
shapes a first `start()` from the initial state arms. -/
theorem restart_rearms :
    ∀ w : World, w.poller.isRunning = false →
      (start w).poller.isRunning = true ∧
      (start w).timers = w.timers ++
        [⟨w.nextId, .schedule, .interval 60000, w.now⟩,
         ⟨w.nextId + 1, .outlook, .interval 60000, w.now⟩,
         ⟨w.nextId + 2, .schedule, .timeout 5000, w.now⟩,
         ⟨w.nextId + 3, .outlook, .timeout 10000, w.now⟩] ∧
      start w ≠ w ∧
      ((start w).timers.drop w.timers.length).map (fun t => (t.task, t.kind)) =
        (start initialWorld).timers.map (fun t => (t.task, t.kind)) := by
  intro w h
  have htimers : (start w).timers = w.timers ++
      [⟨w.nextId, .schedule, .interval 60000, w.now⟩,
       ⟨w.nextId + 1, .outlook, .interval 60000, w.now⟩,
       ⟨w.nextId + 2, .schedule, .timeout 5000, w.now⟩,
       ⟨w.nextId + 3, .outlook, .timeout 10000, w.now⟩] := by
    simp [start, h]
  have hrun : (start w).poller.isRunning = true := start_isRunning w
  refine ⟨hrun, htimers, ?_, ?_⟩
  · intro heq
    rw [heq, h] at hrun
    exact Bool.false_ne_true hrun
  · rw [htimers, List.drop_left]
    rfl

/-- Witness for C9 at a concrete input: after `start(); stop()`, a further
`start()` flips the poller back to running and is not a no-op. -/
theorem restart_rearms_witness :
    (start (stop (start initialWorld))).poller.isRunning = true ∧
    start (stop (start initialWorld)) ≠ stop (start initialWorld) ∧
    ((start (stop (start initialWorld))).timers.drop
        (stop (start initialWorld)).timers.length).map (fun t => (t.task, t.kind)) =
      (start initialWorld).timers.map (fun t => (t.task, t.kind)) := by
  have h := restart_rearms (stop (start initialWorld)) (by rfl)
  exact ⟨h.1, h.2.2.1, h.2.2.2⟩

/-- One lifecycle call preserves the handles-absent-when-stopped invariant. -/
lemma step_preserves_handlesAbsent (w : World) (a : Action)
    (hw : handlesAbsentWhenStopped w) : handlesAbsentWhenStopped (step w a) := by
  cases a with
  | startAct =>
      intro hstop
      simp only [step] at hstop
      rw [start_isRunning w] at hstop
      exact Bool.noConfusion hstop
  | stopAct =>
      intro hstop
      by_cases h : w.poller.isRunning = true
      · simp [step, stop, h]
      · simp only [Bool.not_eq_true] at h
        have heq : step w .stopAct = w := by simp [step, stop, h]
        rw [heq]
        exact hw h

/-- The invariant is preserved along any fold of lifecycle calls. -/
lemma foldl_preserves_handlesAbsent (acts : List Action) (w : World)
    (hw : handlesAbsentWhenStopped w) :
    handlesAbsentWhenStopped (acts.foldl step w) := by
  induction acts generalizing w with
  | nil => exact hw
  | cons a rest ih => exact ih (step w a) (step_preserves_handlesAbsent w a hw)

/-- C3: the `PollerState` invariant `running = false → both timer handles are
null` holds in the initial state and in every state reached from it by a
sequence of `start()`/`stop()` calls. -/
theorem stopped_implies_no_handles :
    handlesAbsentWhenStopped initialWorld ∧
    ∀ acts : List Action, handlesAbsentWhenStopped (run acts) := by
  constructor
  · intro _; exact ⟨rfl, rfl⟩
  · intro acts
    exact foldl_preserves_handlesAbsent acts initialWorld (fun _ => ⟨rfl, rfl⟩)

/-- Witness for C3 at a concrete input: after `start(); stop()` the poller is
stopped and both interval handles are null. -/
theorem stopped_implies_no_handles_witness :
    (run [Action.startAct, Action.stopAct]).poller.scheduleIntervalId = none ∧
    (run [Action.startAct, Action.stopAct]).poller.outlookIntervalId = none := by
  have h := stopped_implies_no_handles
  exact h.2 [Action.startAct, Action.stopAct] (by rfl)

/-- C2: whatever the environment and the behaviour of the `fetch` call,
configuration reads and body parsing — including thrown exceptions — each poll
task resolves normally (no exception escapes its boundary); whenever the task
body throws, the task's log is the body's log followed by exactly one
error-level entry reporting the exception. -/
theorem poll_tasks_never_propagate :
    ∀ (env : Env) (fetch : FetchOutcome),
      (pollSchedules env fetch).2 = none ∧
      (pollOutlook env fetch).2 = none ∧
      (∀ e, (pollSchedulesBody env fetch).2 = some e →
        (pollSchedules env fetch).1.logs =
          (pollSchedulesBody env fetch).1.logs ++
            [⟨.error, "Error polling schedules: " ++ e⟩]) ∧
      (∀ e, (pollOutlookBody env fetch).2 = some e →
        (pollOutlook env fetch).1.logs =
          (pollOutlookBody env fetch).1.logs ++
            [⟨.error, "Error polling Outlook: " ++ e⟩]) := by
  intro env fetch
  refine ⟨?_, ?_, ?_, ?_⟩
  · rcases h : pollSchedulesBody env fetch with ⟨eff, _ | e⟩ <;> simp [pollSchedules, h]
  · rcases h : pollOutlookBody env fetch with ⟨eff, _ | e⟩ <;> simp [pollOutlook, h]
  · intro e he
    rcases h : pollSchedulesBody env fetch with ⟨eff, exc⟩
    rw [h] at he
    simp only at he
    subst he
    simp [pollSchedules, h]
  · intro e he
    rcases h : pollOutlookBody env fetch with ⟨eff, exc⟩
    rw [h] at he
    simp only at he
    subst he
    simp [pollOutlook, h]

/-- Witness for C2 at a concrete input: a throwing `fetch` is caught and
logged at error level, and the task resolves normally. -/
theorem poll_tasks_never_propagate_witness :
    (pollSchedules ⟨none, some "secret"⟩ (.throws "boom")).2 = none ∧
    (pollSchedules ⟨none, some "secret"⟩ (.throws "boom")).1.logs =
      [⟨.debug, "Polling schedules..."⟩, ⟨.error, "Error polling schedules: boom"⟩] := by
  have h := poll_tasks_never_propagate ⟨none, some "secret"⟩ (.throws "boom")
  refine ⟨h.1, ?_⟩
  have h2 := h.2.2.1 "boom" (by rfl)
  simpa using h2

/-- C5: with `CRON_SECRET` absent, each poll task performs zero HTTP calls,
emits exactly one warning log naming the skipped poll task, and resolves
without error. -/
theorem missing_secret_skips :
    ∀ (env : Env) (fetch : FetchOutcome), env.CRON_SECRET = none →
      pollSchedules env fetch =
        ({ logs := [⟨.warn, "CRON_SECRET not configured - skipping schedule polling"⟩]
           requests := [] }, none) ∧
      pollOutlook env fetch =
        ({ logs := [⟨.warn, "CRON_SECRET not configured - skipping Outlook polling"⟩]
           requests := [] }, none) := by
  intro env fetch h
  constructor <;>
    simp [pollSchedules, pollOutlook, pollSchedulesBody, pollOutlookBody, falsyStr, h]

/-- Witness for C5 at a concrete input. -/
theorem missing_secret_skips_witness :
    pollSchedules ⟨some "https://sim.example", none⟩ (.throws "never reached") =
      ({ logs := [⟨.warn, "CRON_SECRET not configured - skipping schedule polling"⟩]
         requests := [] }, none) ∧
    pollOutlook ⟨some "https://sim.example", none⟩ (.throws "never reached") =
      ({ logs := [⟨.warn, "CRON_SECRET not configured - skipping Outlook polling"⟩]
         requests := [] }, none) :=
  missing_secret_skips ⟨some "https://sim.example", none⟩ (.throws "never reached") rfl

/-- C6: on any non-2xx response each poll task performs exactly one HTTP
request, logs one error-level line containing the status code and status text,
never reads the response body (the result is the same for every body), and
resolves normally. -/
theorem non2xx_single_request_error_log :
    ∀ (env : Env) (status : Nat) (statusText : String) (body : BodyOutcome),
      falsyStr env.CRON_SECRET = false → responseOk status = false →
      pollSchedules env (.response status statusText body) =
        ({ logs := [⟨.debug, "Polling schedules..."⟩,
                    ⟨.error, "Schedule polling failed: " ++ toString status ++ " " ++ statusText⟩]
           requests := [scheduleUrl env] }, none) ∧
      pollOutlook env (.response status statusText body) =
        ({ logs := [⟨.debug, "Polling Outlook..."⟩,
                    ⟨.error, "Outlook polling failed: " ++ toString status ++ " " ++ statusText⟩]
           requests := [outlookUrl env] }, none) := by
  intro env status statusText body h hok
  constructor <;>
    simp [pollSchedules, pollOutlook, pollSchedulesBody, pollOutlookBody, h, hok,
      scheduleUrl, outlookUrl]

/-- Witness for C6 at a concrete input: an HTTP 500 response, body ignored. -/
theorem non2xx_single_request_error_log_witness :
    pollSchedules ⟨none, some "secret"⟩
        (.response 500 "Internal Server Error" (.value .null)) =
      ({ logs := [⟨.debug, "Polling schedules..."⟩,
                  ⟨.error, "Schedule polling failed: 500 Internal Server Error"⟩]
         requests := ["http://localhost:3000/api/schedules/execute"] }, none) ∧
    pollOutlook ⟨none, some "secret"⟩
        (.response 500 "Internal Server Error" (.value .null)) =
      ({ logs := [⟨.debug, "Polling Outlook..."⟩,
                  ⟨.error, "Outlook polling failed: 500 Internal Server Error"⟩]
         requests := ["http://localhost:3000/api/webhooks/poll/outlook"] }, none) := by
  have h := non2xx_single_request_error_log ⟨none, some "secret"⟩ 500 "Internal Server Error"
    (.value .null) (by rfl) (by rfl)
  simpa using h

/-- C7 counterexample: the claim says the Schedule task logs the informational
summary whenever `executedCount` is nonzero, but the code tests
`executedCount > 0`; on the 2xx body `{executedCount: -1}` the count is
nonzero yet the task takes the debug branch and emits no info-level line. -/
theorem count_verbosity_counterexample :
    (-1 : Int) ≠ 0 ∧
    pollSchedules ⟨none, some "secret"⟩
        (.response 200 "OK" (.value (.obj [("executedCount", .num (-1))]))) =
      ({ logs := [⟨.debug, "Polling schedules..."⟩,
                  ⟨.debug, "Schedule poll completed: no workflows due"⟩]
         requests := ["http://localhost:3000/api/schedules/execute"] }, none) := by
  exact ⟨by decide, rfl⟩

/-- C7 (amended: "nonzero" → "greater than zero"): on a 2xx response the
Schedule task logs an info-level summary including the count exactly when
`executedCount > 0` and otherwise logs at debug level; likewise the Outlook
task logs at info level including `total` and `successful` exactly when
`total > 0` and otherwise at debug level. -/
theorem count_verbosity_positive :
    ∀ (env : Env) (status : Nat) (statusText : String) (n : Int) (v : JSValue),
      falsyStr env.CRON_SECRET = false → responseOk status = true →
      (0 < n →
        pollSchedules env (.response status statusText
            (.value (.obj [("executedCount", .num n)]))) =
          ({ logs := [⟨.debug, "Polling schedules..."⟩,
                      ⟨.info, "Schedule poll completed: " ++ toString n ++ " workflows executed"⟩]
             requests := [scheduleUrl env] }, none)) ∧
      (n ≤ 0 →
        pollSchedules env (.response status statusText
            (.value (.obj [("executedCount", .num n)]))) =
          ({ logs := [⟨.debug, "Polling schedules..."⟩,
                      ⟨.debug, "Schedule poll completed: no workflows due"⟩]
             requests := [scheduleUrl env] }, none)) ∧
      (0 < n →
        pollOutlook env (.response status statusText
            (.value (.obj [("total", .num n), ("successful", v)]))) =
          ({ logs := [⟨.debug, "Polling Outlook..."⟩,
                      ⟨.info, "Outlook poll completed: " ++ toString n ++ " webhooks checked, "
                        ++ jsToString v ++ " successful"⟩]
             requests := [outlookUrl env] }, none)) ∧
      (n ≤ 0 →
        pollOutlook env (.response status statusText
            (.value (.obj [("total", .num n), ("successful", v)]))) =
          ({ logs := [⟨.debug, "Polling Outlook..."⟩,
                      ⟨.debug, "Outlook poll completed: no active webhooks"⟩]
             requests := [outlookUrl env] }, none)) := by
  intro env status statusText n v h hok
  refine ⟨?_, ?_, ?_, ?_⟩ <;> intro hn <;>
    simp [pollSchedules, pollOutlook, pollSchedulesBody, pollOutlookBody, h, hok,
      getField, List.lookup, jsGtZero, toNumber, jsToString, hn,
      scheduleUrl, outlookUrl, Int.not_lt.mpr hn]

/-- Witness for the amended C7 at concrete inputs: count 3 gives an info-level
summary with the count, count 0 gives a debug-level line. -/
theorem count_verbosity_positive_witness :
    pollSchedules ⟨none, some "secret"⟩
        (.response 200 "OK" (.value (.obj [("executedCount", .num 3)]))) =
      ({ logs := [⟨.debug, "Polling schedules..."⟩,
                  ⟨.info, "Schedule poll completed: 3 workflows executed"⟩]
         requests := ["http://localhost:3000/api/schedules/execute"] }, none) ∧
    pollSchedules ⟨none, some "secret"⟩
        (.response 200 "OK" (.value (.obj [("executedCount", .num 0)]))) =
      ({ logs := [⟨.debug, "Polling schedules..."⟩,
                  ⟨.debug, "Schedule poll completed: no workflows due"⟩]
         requests := ["http://localhost:3000/api/schedules/execute"] }, none) ∧
    pollOutlook ⟨none, some "secret"⟩
        (.response 200 "OK" (.value (.obj [("total", .num 2), ("successful", .num 1)]))) =
      ({ logs := [⟨.debug, "Polling Outlook..."⟩,
                  ⟨.info, "Outlook poll completed: 2 webhooks checked, 1 successful"⟩]
         requests := ["http://localhost:3000/api/webhooks/poll/outlook"] }, none) := by
  have h3 := count_verbosity_positive ⟨none, some "secret"⟩ 200 "OK" 3 (.num 1)
    (by rfl) (by rfl)
  have h0 := count_verbosity_positive ⟨none, some "secret"⟩ 200 "OK" 0 (.num 1)
    (by rfl) (by rfl)
  have h2 := count_verbosity_positive ⟨none, some "secret"⟩ 200 "OK" 2 (.num 1)
    (by rfl) (by rfl)
  exact ⟨by simpa using h3.1 (by decide), by simpa using (h0.2.1) (by decide),
    by simpa using (h2.2.2.1) (by decide)⟩

/-- C10 counterexample: the claim says a 2xx body lacking the expected count
field takes the debug branch and never produces an error-level log, but the
2xx body `null` (which has no `executedCount` field) makes the property access
throw a `TypeError`, which the catch-all logs at error level. -/
theorem missing_count_field_counterexample :
    pollSchedules ⟨none, some "secret"⟩ (.response 200 "OK" (.value .null)) =
      ({ logs := [⟨.debug, "Polling schedules..."⟩,
                  ⟨.error, "Error polling schedules: TypeError: Cannot read properties of null (reading executedCount)"⟩]
         requests := ["http://localhost:3000/api/schedules/execute"] }, none) ∧
    (⟨.error, "Error polling schedules: TypeError: Cannot read properties of null (reading executedCount)"⟩ : LogEntry) ∈
      (pollSchedules ⟨none, some "secret"⟩ (.response 200 "OK" (.value .null))).1.logs := by
  exact ⟨rfl, by decide⟩

/-- C10 (amended: restricted to non-null bodies): for every 2xx response whose
parsed body's count-field access yields a value (in particular any non-null
body lacking the field, where access yields `undefined`) that does not compare
greater than zero under JavaScript coercion, the poll task takes the
debug-level branch and resolves normally with no error-level log; a `null`
body instead takes the catch branch — one error-level log — and still
resolves normally. -/
theorem missing_count_field_debug :
    ∀ (env : Env) (status : Nat) (statusText : String) (data v : JSValue),
      falsyStr env.CRON_SECRET = false → responseOk status = true →
      (getField data "executedCount" = .ok v → jsGtZero v = false →
        pollSchedules env (.response status statusText (.value data)) =
          ({ logs := [⟨.debug, "Polling schedules..."⟩,
                      ⟨.debug, "Schedule poll completed: no workflows due"⟩]
             requests := [scheduleUrl env] }, none)) ∧
      (getField data "total" = .ok v → jsGtZero v = false →
        pollOutlook env (.response status statusText (.value data)) =
          ({ logs := [⟨.debug, "Polling Outlook..."⟩,
                      ⟨.debug, "Outlook poll completed: no active webhooks"⟩]
             requests := [outlookUrl env] }, none)) ∧
      pollSchedules env (.response status statusText (.value .null)) =
        ({ logs := [⟨.debug, "Polling schedules..."⟩,
                    ⟨.error, "Error polling schedules: TypeError: Cannot read properties of null (reading executedCount)"⟩]
           requests := [scheduleUrl env] }, none) := by
  intro env status statusText data v h hok
  refine ⟨?_, ?_, ?_⟩
  · intro hf hv
    simp [pollSchedules, pollSchedulesBody, h, hok, hf, hv, scheduleUrl]
  · intro hf hv
    simp [pollOutlook, pollOutlookBody, h, hok, hf, hv, outlookUrl]
  · simp [pollSchedules, pollSchedulesBody, h, hok, getField, scheduleUrl]

/-- Witness for the amended C10 at concrete inputs: the empty-object body
(count field missing, access yields `undefined`) takes the debug branch in
both tasks, and the `null` body takes the catch branch. -/
theorem missing_count_field_debug_witness :
    pollSchedules ⟨none, some "secret"⟩ (.response 200 "OK" (.value (.obj []))) =
      ({ logs := [⟨.debug, "Polling schedules..."⟩,
                  ⟨.debug, "Schedule poll completed: no workflows due"⟩]
         requests := ["http://localhost:3000/api/schedules/execute"] }, none) ∧
    pollOutlook ⟨none, some "secret"⟩ (.response 200 "OK" (.value (.obj []))) =
      ({ logs := [⟨.debug, "Polling Outlook..."⟩,
                  ⟨.debug, "Outlook poll completed: no active webhooks"⟩]
         requests := ["http://localhost:3000/api/webhooks/poll/outlook"] }, none) ∧
    pollSchedules ⟨none, some "secret"⟩ (.response 200 "OK" (.value .null)) =
      ({ logs := [⟨.debug, "Polling schedules..."⟩,
                  ⟨.error, "Error polling schedules: TypeError: Cannot read properties of null (reading executedCount)"⟩]
         requests := ["http://localhost:3000/api/schedules/execute"] }, none) := by
  have h := missing_count_field_debug ⟨none, some "secret"⟩ 200 "OK" (.obj []) .undefined
    (by rfl) (by rfl)
  exact ⟨by simpa using h.1 rfl rfl, by simpa using h.2.1 rfl rfl, by simpa using h.2.2⟩

end InternalPoller
